import Mathlib

/-!
Verification of the bot-detection engine of the ChatOn-Template repository.

The embedding below translates `src/JOSH/detect-bot-algo.ts` (both the engine
copy of `detectBotAlgo`, lines 24-329, and the runner copy, lines 382-630,
together with the run summarizers and the analysis driver `analyzeUrl`) and the
per-submission driver `detectBotDuringScan` of `src/unnamed/part_000`.

Modelling conventions:
* JavaScript numbers are modelled as `ℚ`.  All metric fields of the typed
  `ScanData` interface are finite numbers, so the `isNumber`/`toNum`
  guards of the source are the identity and `isZeroish v` is `v = 0`.
* `Math.abs` and `Math.max` are modelled by `absQ` and `maxQ` below.
* Number formatting in reason strings (JavaScript template interpolation and
  `toFixed`) is rendered with `toString` on `ℚ`; no claim depends on the digit
  rendering.
* The mutable `shouldReject`/`bottedReason` accumulator pair of the source is
  threaded explicitly: every labelled rule block of the source becomes one
  state-transformer step, and `detectBotAlgo` is the sequential composition of
  the steps in source order applied to the initial state `⟨false, ""⟩`.
-/

/-- Interface `ScanData` of detect-bot-algo.ts: one engagement snapshot. -/
structure ScanData where
  views : ℚ
  likes : ℚ
  saves : ℚ
  shares : ℚ
  comments : ℚ
  missing : Bool
deriving DecidableEq

/-- Interface `BotDetectorAlgoResponse` of detect-bot-algo.ts; also the accumulator
state threaded through the rule blocks. -/
structure BotDetectorAlgoResponse where
  shouldReject : Bool
  bottedReason : String
deriving DecidableEq

/-- Interface `Props` of detect-bot-algo.ts.  `logNotes` only drives console logging in
the source and never affects the returned response. -/
structure Props where
  prevScan : ScanData
  currentScan : ScanData
  platform : String
  scanIndex : Option Nat
  allScans : Option (List ScanData)
  logNotes : Bool

/-- The four metric keys of `type MetricKey` in the source. -/
inductive MetricKey
  | likes
  | comments
  | saves
  | shares
deriving DecidableEq

/-- Field access `scan[key]` for a metric key. -/
def ScanData.metric : ScanData → MetricKey → ℚ
  | s, .likes => s.likes
  | s, .comments => s.comments
  | s, .saves => s.saves
  | s, .shares => s.shares

/-- JavaScript `Math.abs`. -/
def absQ (a : ℚ) : ℚ := if a < 0 then -a else a

/-- JavaScript `Math.max` on two numbers. -/
def maxQ (a b : ℚ) : ℚ := if a ≤ b then b else a

theorem absQ_eq_abs (a : ℚ) : absQ a = |a| := by
  unfold absQ
  rcases lt_or_le a 0 with h | h
  · rw [if_pos h, abs_of_neg h]
  · rw [if_neg (not_lt.mpr h), abs_of_nonneg h]

/-- Local `nextScan`: `allScans[scanIndex + 1]` when `hasNext` holds, else
`undefined`. -/
def nextScan (p : Props) : Option ScanData :=
  match p.allScans, p.scanIndex with
  | some l, some i => l.get? (i + 1)
  | _, _ => none

/-- Local `prevPrevScan`: `allScans[scanIndex - 2]` when `hasPrevPrev` holds, else
`undefined`. -/
def prevPrevScan (p : Props) : Option ScanData :=
  match p.allScans, p.scanIndex with
  | some l, some i => if 2 ≤ i then l.get? (i - 2) else none
  | _, _ => none

/-- Value `toNum(o?.[key])` on an optional scan. -/
def optMetric (o : Option ScanData) (k : MetricKey) : ℚ := (o.map (·.metric k)).getD 0

/-- Value `toNum(o?.views)` on an optional scan. -/
def optViews (o : Option ScanData) : ℚ := (o.map (·.views)).getD 0

/-- The `glitchLikes`/`glitchComments`/`glitchSaves`/`glitchShares` pattern of
the source for an arbitrary metric key: the current reading is a zero-ish
one-scan dropout bracketed by positive readings, or the mirror case on the
previous scan. -/
def glitchOn (p : Props) (k : MetricKey) : Prop :=
  (p.currentScan.metric k = 0 ∧ (nextScan p).isSome = true
      ∧ 0 < p.prevScan.metric k ∧ 0 < optMetric (nextScan p) k)
  ∨ (p.prevScan.metric k = 0 ∧ (prevPrevScan p).isSome = true
      ∧ 0 < optMetric (prevPrevScan p) k ∧ 0 < p.currentScan.metric k)

instance (p : Props) (k : MetricKey) : Decidable (glitchOn p k) := by
  unfold glitchOn; infer_instance

/-- Local `glitchLikes` of the source. -/
def glitchLikes (p : Props) : Prop := glitchOn p .likes

/-- Local `glitchComments` of the source. -/
def glitchComments (p : Props) : Prop := glitchOn p .comments

/-- Local `glitchSaves` of the source. -/
def glitchSaves (p : Props) : Prop := glitchOn p .saves

/-- Local `glitchShares` of the source. -/
def glitchShares (p : Props) : Prop := glitchOn p .shares

instance (p : Props) : Decidable (glitchLikes p) := by unfold glitchLikes; infer_instance

instance (p : Props) : Decidable (glitchComments p) := by unfold glitchComments; infer_instance

instance (p : Props) : Decidable (glitchSaves p) := by unfold glitchSaves; infer_instance

instance (p : Props) : Decidable (glitchShares p) := by unfold glitchShares; infer_instance

/-- Result record of `getEffectivePair`. -/
structure EffPair where
  prev : ℚ
  curr : ℚ
  prevViews : ℚ
  currViews : ℚ
  bridged : Bool
deriving DecidableEq

/-- Helper `getEffectivePair` of the source: the prev→curr boundary for a metric,
bridged over the current scan when it is a zero-ish dropout with a positive
next reading. -/
def getEffectivePair (p : Props) (k : MetricKey) : EffPair :=
  if (nextScan p).isSome = true ∧ p.currentScan.metric k = 0
      ∧ 0 < p.prevScan.metric k ∧ 0 < optMetric (nextScan p) k then
    ⟨p.prevScan.metric k, optMetric (nextScan p) k,
     p.prevScan.views, optViews (nextScan p), true⟩
  else
    ⟨p.prevScan.metric k, p.currentScan.metric k,
     p.prevScan.views, p.currentScan.views, false⟩

/-- Local `matureScan`: in the source, scanIndex is a number and at least 1. -/
def matureScan (p : Props) : Bool :=
  match p.scanIndex with
  | some i => decide (1 ≤ i)
  | none => false

/-- The leading-zero-views counting loop of the engine copy. -/
def countLeadingZeroViews : List ScanData → Nat
  | [] => 0
  | s :: rest => if s.views = 0 then countLeadingZeroViews rest + 1 else 0

/-- Local `leadingZeroCount` of the engine copy (0 when `allScans` is absent). -/
def leadingZeroCount (p : Props) : Nat :=
  match p.allScans with
  | some l => countLeadingZeroViews l
  | none => 0

/-- Message of the first branch of `checkAnomaly`. -/
def appearedMsg (metric : String) (current : ℚ) : String :=
  "\n" ++ metric ++ " appeared (0→" ++ toString current ++ ") without corresponding jump in views"

/-- Message of the second branch of `checkAnomaly`. -/
def grewMsg (metric : String) : String :=
  "\n" ++ metric ++ " grew quickly without corresponding jump in views"

/-- Helper `checkAnomaly` of the source.  The first branch `return`s, so the
second test only runs when the first condition fails. -/
def checkAnomaly (p : Props) (metric : String) (current previous viewGrowth threshold : ℚ)
    (st : BotDetectorAlgoResponse) : BotDetectorAlgoResponse :=
  if previous = 0 ∧ 10 ≤ current ∧ p.currentScan.views < p.prevScan.views * viewGrowth then
    ⟨true, st.bottedReason ++ appearedMsg metric current⟩
  else if 0 < previous ∧ p.currentScan.views < p.prevScan.views * viewGrowth
      ∧ previous * threshold < current then
    ⟨true, st.bottedReason ++ grewMsg metric⟩
  else st

/-- Firing condition of the EARLY 20K VIEW JUMP block (engine copy only):
mature, `scanIndex - leadingZeroCount < 4` (integer arithmetic), and a view
delta of at least 20000. -/
def earlyJumpCond (p : Props) : Prop :=
  matureScan p = true
  ∧ ((p.scanIndex.getD 0 : ℤ) - (leadingZeroCount p : ℤ) < 4)
  ∧ 20000 ≤ p.currentScan.views - p.prevScan.views

instance (p : Props) : Decidable (earlyJumpCond p) := by unfold earlyJumpCond; infer_instance

/-- EARLY 20K VIEW JUMP IN FIRST 5 SCANS (engine copy only). -/
def earlyJumpStep (p : Props) (st : BotDetectorAlgoResponse) : BotDetectorAlgoResponse :=
  if earlyJumpCond p then
    ⟨true, st.bottedReason ++ "\nearly 20k+ view jump within first 5 scans"⟩
  else st

/-- Firing condition of the "views doubled quickly without corresponding jump
in likes" rule: the bridged likes pair of `getEffectivePair` on likes with
`L.currViews > 1000 && L.currViews > L.prevViews * 2 && L.curr < L.prev * 1.2`
(the literal `1.2` of the source is the rational `6/5`). -/
def likesDoubledCond (p : Props) : Prop :=
  p.platform ≠ "youtube" ∧ p.platform ≠ "snapchat"
  ∧ 1000 < (getEffectivePair p .likes).currViews
  ∧ (getEffectivePair p .likes).prevViews * 2 < (getEffectivePair p .likes).currViews
  ∧ (getEffectivePair p .likes).curr < (getEffectivePair p .likes).prev * (6/5)

instance (p : Props) : Decidable (likesDoubledCond p) := by
  unfold likesDoubledCond; infer_instance

/-- LIKES ANOMALIES, first rule. -/
def likesDoubledStep (p : Props) (st : BotDetectorAlgoResponse) : BotDetectorAlgoResponse :=
  if likesDoubledCond p then
    ⟨true, st.bottedReason ++ "\nviews doubled quickly without corresponding jump in likes"⟩
  else st

/-- Firing condition of "views grew but <2 likes change". -/
def likesFrozenCond (p : Props) : Prop :=
  p.platform ≠ "youtube" ∧ p.platform ≠ "snapchat"
  ∧ matureScan p = true ∧ ¬ glitchLikes p
  ∧ 1000 ≤ (getEffectivePair p .likes).currViews - (getEffectivePair p .likes).prevViews
  ∧ (getEffectivePair p .likes).curr - (getEffectivePair p .likes).prev < 2

instance (p : Props) : Decidable (likesFrozenCond p) := by
  unfold likesFrozenCond; infer_instance

/-- LIKES ANOMALIES, second rule. -/
def likesFrozenStep (p : Props) (st : BotDetectorAlgoResponse) : BotDetectorAlgoResponse :=
  if likesFrozenCond p then
    ⟨true, st.bottedReason ++ "\nviews grew but <2 likes change"⟩
  else st

/-- Firing condition of the likes-spike rule (`1.5` is `3/2`, `1.2` is `6/5`). -/
def likesSpikeCond (p : Props) : Prop :=
  p.platform ≠ "youtube" ∧ p.platform ≠ "snapchat"
  ∧ matureScan p = true ∧ ¬ glitchLikes p
  ∧ 0 < (getEffectivePair p .likes).curr
  ∧ (getEffectivePair p .likes).prev * (3/2) < (getEffectivePair p .likes).curr
  ∧ (getEffectivePair p .likes).currViews < (getEffectivePair p .likes).prevViews * (6/5)

instance (p : Props) : Decidable (likesSpikeCond p) := by
  unfold likesSpikeCond; infer_instance

/-- LIKES ANOMALIES, third rule. -/
def likesSpikeStep (p : Props) (st : BotDetectorAlgoResponse) : BotDetectorAlgoResponse :=
  if likesSpikeCond p then
    ⟨true, st.bottedReason ++ "\nlikes spiked (≥1.5x) without corresponding jump in views"⟩
  else st

/-- Shares-and-saves generic anomaly block: for each of the two metrics, when
not glitched, run `checkAnomaly` with growth bound 2 / multiplier 10 and then
with growth bound 1.2 / multiplier 3. -/
def sharesSavesStep (p : Props) (st : BotDetectorAlgoResponse) : BotDetectorAlgoResponse :=
  if matureScan p then
    let st1 :=
      if ¬ glitchShares p then
        checkAnomaly p "shares" (getEffectivePair p .shares).curr (getEffectivePair p .shares).prev (6/5) 3
          (checkAnomaly p "shares" (getEffectivePair p .shares).curr (getEffectivePair p .shares).prev 2 10 st)
      else st
    if ¬ glitchSaves p then
      checkAnomaly p "saves" (getEffectivePair p .saves).curr (getEffectivePair p .saves).prev (6/5) 3
        (checkAnomaly p "saves" (getEffectivePair p .saves).curr (getEffectivePair p .saves).prev 2 10 st1)
    else st1
  else st

/-- Firing condition of the SHARES ANOMALY RULE (0→X jump). -/
def sharesZeroJumpCond (p : Props) : Prop :=
  matureScan p = true ∧ ¬ glitchShares p
  ∧ p.prevScan.shares = 0 ∧ (getEffectivePair p .shares).bridged = false
  ∧ 10 ≤ p.currentScan.shares ∧ p.currentScan.views < p.prevScan.views * 2

instance (p : Props) : Decidable (sharesZeroJumpCond p) := by
  unfold sharesZeroJumpCond; infer_instance

/-- SHARES ANOMALY RULE. -/
def sharesZeroJumpStep (p : Props) (st : BotDetectorAlgoResponse) : BotDetectorAlgoResponse :=
  if sharesZeroJumpCond p then
    ⟨true, st.bottedReason ++ "\nshares appeared (0→X) without corresponding jump in views"⟩
  else st

/-- Firing condition of the SAVES ANOMALY RULE (0→X jump). -/
def savesZeroJumpCond (p : Props) : Prop :=
  matureScan p = true ∧ ¬ glitchSaves p
  ∧ p.prevScan.saves = 0 ∧ (getEffectivePair p .saves).bridged = false
  ∧ 10 ≤ p.currentScan.saves ∧ p.currentScan.views < p.prevScan.views * 2

instance (p : Props) : Decidable (savesZeroJumpCond p) := by
  unfold savesZeroJumpCond; infer_instance

/-- SAVES ANOMALY RULE. -/
def savesZeroJumpStep (p : Props) (st : BotDetectorAlgoResponse) : BotDetectorAlgoResponse :=
  if savesZeroJumpCond p then
    ⟨true, st.bottedReason ++ "\nsaves appeared (0→X) without corresponding jump in views"⟩
  else st

/-- Firing condition of TIKTOK: ZERO SAVES WITH 5K+ VIEWS (engine copy only). -/
def tiktokZeroSavesCond (p : Props) : Prop :=
  p.platform = "tiktok" ∧ 5000 ≤ p.currentScan.views
  ∧ p.currentScan.saves = 0 ∧ ¬ glitchSaves p

instance (p : Props) : Decidable (tiktokZeroSavesCond p) := by
  unfold tiktokZeroSavesCond; infer_instance

/-- TIKTOK: ZERO SAVES WITH 5K+ VIEWS (engine copy only). -/
def tiktokZeroSavesStep (p : Props) (st : BotDetectorAlgoResponse) : BotDetectorAlgoResponse :=
  if tiktokZeroSavesCond p then
    ⟨true, st.bottedReason ++ "\nzero saves at 5k+ views (TikTok)"⟩
  else st

/-- Firing condition of TIKTOK: ZERO SHARES WITH 10K+ VIEWS (engine copy only). -/
def tiktokZeroSharesCond (p : Props) : Prop :=
  p.platform = "tiktok" ∧ 10000 ≤ p.currentScan.views
  ∧ p.currentScan.shares = 0 ∧ ¬ glitchShares p

instance (p : Props) : Decidable (tiktokZeroSharesCond p) := by
  unfold tiktokZeroSharesCond; infer_instance

/-- TIKTOK: ZERO SHARES WITH 10K+ VIEWS (engine copy only). -/
def tiktokZeroSharesStep (p : Props) (st : BotDetectorAlgoResponse) : BotDetectorAlgoResponse :=
  if tiktokZeroSharesCond p then
    ⟨true, st.bottedReason ++ "\nzero shares at 10k+ views (TikTok)"⟩
  else st

/-- Firing condition of the ZERO LIKES RULE. -/
def zeroLikesCond (p : Props) : Prop :=
  matureScan p = true ∧ ¬ glitchLikes p
  ∧ 1000 < (getEffectivePair p .likes).currViews
  ∧ (getEffectivePair p .likes).curr = 0
  ∧ p.platform ∈ ["tiktok", "instagram", "youtube"]

instance (p : Props) : Decidable (zeroLikesCond p) := by
  unfold zeroLikesCond; infer_instance

/-- ZERO LIKES RULE. -/
def zeroLikesStep (p : Props) (st : BotDetectorAlgoResponse) : BotDetectorAlgoResponse :=
  if zeroLikesCond p then
    ⟨true, st.bottedReason ++ "\nzero likes"⟩
  else st

/-- Firing condition of the SNAPCHAT ULTRA-LOW ENGAGEMENT RULE.  This rule
sets `shouldReject` without appending any text; the source comment says the
detailed message is deferred to later summarization. -/
def snapUltraCond (p : Props) : Prop :=
  p.platform = "snapchat" ∧ 20000 < p.currentScan.views
  ∧ p.currentScan.comments = 0 ∧ p.currentScan.shares ≤ 1

instance (p : Props) : Decidable (snapUltraCond p) := by
  unfold snapUltraCond; infer_instance

/-- SNAPCHAT ULTRA-LOW ENGAGEMENT RULE: raises only the flag. -/
def snapUltraLowStep (p : Props) (st : BotDetectorAlgoResponse) : BotDetectorAlgoResponse :=
  if snapUltraCond p then ⟨true, st.bottedReason⟩ else st

/-- Local `prevLikeRatio` of the like-ratio-collapse block. -/
def prevLikeFrac (p : Props) : ℚ :=
  if 0 < (getEffectivePair p .likes).prevViews then
    (getEffectivePair p .likes).prev / (getEffectivePair p .likes).prevViews
  else 0

/-- Local `currLikeRatio` of the like-ratio-collapse block. -/
def currLikeFrac (p : Props) : ℚ :=
  if 0 < (getEffectivePair p .likes).currViews then
    (getEffectivePair p .likes).curr / (getEffectivePair p .likes).currViews
  else 0

/-- Firing condition of LIKE-RATIO COLLAPSE AFTER MAJOR VIEW JUMP; `1e-9` is
`1/1000000000` and `dropFactor` is inlined. -/
def likeRatioCollapseCond (p : Props) : Prop :=
  p.platform ≠ "youtube" ∧ p.platform ≠ "snapchat"
  ∧ 100 ≤ p.prevScan.views ∧ matureScan p = true
  ∧ ¬ glitchLikes p
  ∧ ((getEffectivePair p .likes).prevViews * 5 ≤ (getEffectivePair p .likes).currViews
      ∨ 5000 ≤ (getEffectivePair p .likes).currViews - (getEffectivePair p .likes).prevViews)
  ∧ 0 < prevLikeFrac p
  ∧ 3 ≤ prevLikeFrac p / maxQ (currLikeFrac p) (1/1000000000)

instance (p : Props) : Decidable (likeRatioCollapseCond p) := by
  unfold likeRatioCollapseCond; infer_instance

/-- Reason text of the like-ratio-collapse rule (`toFixed(2)` rendered with
`toString`). -/
def likeRatioMsg (p : Props) : String :=
  "\nmassive view jump with like-ratio collapse (" ++ toString (prevLikeFrac p * 100)
    ++ "% → " ++ toString (currLikeFrac p * 100) ++ "%)"

/-- LIKE-RATIO COLLAPSE AFTER MAJOR VIEW JUMP. -/
def likeRatioCollapseStep (p : Props) (st : BotDetectorAlgoResponse) : BotDetectorAlgoResponse :=
  if likeRatioCollapseCond p then
    ⟨true, st.bottedReason ++ likeRatioMsg p⟩
  else st

/-- Firing condition of MASSIVE COMMENT DROP. -/
def commentDropCond (p : Props) : Prop :=
  matureScan p = true ∧ ¬ glitchComments p ∧ 20 ≤ p.prevScan.comments
  ∧ 10 ≤ (getEffectivePair p .comments).prev - (getEffectivePair p .comments).curr

instance (p : Props) : Decidable (commentDropCond p) := by
  unfold commentDropCond; infer_instance

/-- Reason text of the massive-comment-drop rule. -/
def commentDropMsg (p : Props) : String :=
  "\nmassive comment drop (-"
    ++ toString ((getEffectivePair p .comments).prev - (getEffectivePair p .comments).curr) ++ ")"

/-- MASSIVE COMMENT DROP. -/
def commentDropStep (p : Props) (st : BotDetectorAlgoResponse) : BotDetectorAlgoResponse :=
  if commentDropCond p then
    ⟨true, st.bottedReason ++ commentDropMsg p⟩
  else st

/-- Firing condition of COMMENTS JUMP WITH MINIMAL VIEW CHANGE. -/
def commentJumpFlatCond (p : Props) : Prop :=
  p.platform ≠ "youtube" ∧ matureScan p = true ∧ ¬ glitchComments p
  ∧ absQ ((getEffectivePair p .comments).currViews - (getEffectivePair p .comments).prevViews) ≤ 30
  ∧ 10 ≤ (getEffectivePair p .comments).curr - (getEffectivePair p .comments).prev

instance (p : Props) : Decidable (commentJumpFlatCond p) := by
  unfold commentJumpFlatCond; infer_instance

/-- Reason text of the comments-jump rule. -/
def commentJumpFlatMsg (p : Props) : String :=
  "\ncomments jumped by "
    ++ toString ((getEffectivePair p .comments).curr - (getEffectivePair p .comments).prev)
    ++ " with minimal view change (+"
    ++ toString (absQ ((getEffectivePair p .comments).currViews - (getEffectivePair p .comments).prevViews))
    ++ ")"

/-- COMMENTS JUMP WITH MINIMAL VIEW CHANGE. -/
def commentJumpFlatStep (p : Props) (st : BotDetectorAlgoResponse) : BotDetectorAlgoResponse :=
  if commentJumpFlatCond p then
    ⟨true, st.bottedReason ++ commentJumpFlatMsg p⟩
  else st

/-- Local `viewJumpFactor` of the comment-injection block. -/
def viewJumpFactor (p : Props) : ℚ :=
  (getEffectivePair p .comments).currViews / maxQ (getEffectivePair p .comments).prevViews 1

/-- Local `commentJumpFactor` of the comment-injection block. -/
def commentJumpFactor (p : Props) : ℚ :=
  (getEffectivePair p .comments).curr / maxQ (getEffectivePair p .comments).prev 1

/-- Firing condition of SUSPICIOUS COMMENT INJECTION. -/
def commentInjectionCond (p : Props) : Prop :=
  matureScan p = true ∧ ¬ glitchComments p
  ∧ viewJumpFactor p < 5 ∧ 50 ≤ commentJumpFactor p

instance (p : Props) : Decidable (commentInjectionCond p) := by
  unfold commentInjectionCond; infer_instance

/-- Reason text of the comment-injection rule (`toFixed(1)` rendered with
`toString`). -/
def commentInjectionMsg (p : Props) : String :=
  "\nsus comment injection: views " ++ toString p.prevScan.views ++ "→"
    ++ toString p.currentScan.views ++ " (" ++ toString (viewJumpFactor p)
    ++ "x) but comments " ++ toString p.prevScan.comments ++ "→"
    ++ toString p.currentScan.comments ++ " (" ++ toString (commentJumpFactor p) ++ "x)"

/-- SUSPICIOUS COMMENT INJECTION. -/
def commentInjectionStep (p : Props) (st : BotDetectorAlgoResponse) : BotDetectorAlgoResponse :=
  if commentInjectionCond p then
    ⟨true, st.bottedReason ++ commentInjectionMsg p⟩
  else st

/-- The 6-scan window `allScans.slice(start, start + 6)` with
`start = Math.max(0, Math.min(scanIndex - 3, total - 6))` (integer
arithmetic, clamped at 0). -/
def windowOf (l : List ScanData) (i : Nat) : List ScanData :=
  (l.drop ((max 0 (min ((i : ℤ) - 3) ((l.length : ℤ) - 6))).toNat)).take 6

/-- View count `scans[k].views || 0` inside the window block. -/
def wv (w : List ScanData) (k : Nat) : ℚ := optViews (w.get? k)

/-- Predicate `isPlateau` of the window block: absolute view difference at most 30. -/
def isPlateau (a b : ℚ) : Prop := absQ (a - b) ≤ 30

instance (a b : ℚ) : Decidable (isPlateau a b) := by unfold isPlateau; infer_instance

/-- Local `overallChangeAbs` of the plateau block (0 when a window slot is absent). -/
def overallChangeAbs (w : List ScanData) : ℚ :=
  if (w.get? 5).isSome = true ∧ (w.get? 3).isSome = true then absQ (wv w 5 - wv w 3) else 0

/-- Local `overallChangeRel` of the plateau block; `scans[3].views || 1` maps a zero
view count to 1 before the outer `Math.max(_, 1)`. -/
def overallChangeRel (w : List ScanData) : ℚ :=
  if (w.get? 5).isSome = true ∧ (w.get? 3).isSome = true then
    absQ (wv w 5 - wv w 3) / maxQ (if wv w 3 = 0 then 1 else wv w 3) 1
  else 0

/-- Firing condition of the plateau→jump→plateau pattern:
`beforePlateau && hasJump && consecutivePlateau && (abs ≤ 30 || rel ≤ 0.1)`,
with the truthiness guards on the window slots made explicit. -/
def plateauCond (w : List ScanData) : Prop :=
  ((w.get? 0).isSome = true ∧ (w.get? 2).isSome = true ∧ isPlateau (wv w 0) (wv w 2))
  ∧ ((w.get? 3).isSome = true ∧ (w.get? 2).isSome = true ∧ 500 ≤ wv w 3 - wv w 2)
  ∧ ((w.get? 3).isSome = true ∧ (w.get? 4).isSome = true ∧ (w.get? 5).isSome = true
      ∧ isPlateau (wv w 3) (wv w 4) ∧ isPlateau (wv w 4) (wv w 5))
  ∧ (overallChangeAbs w ≤ 30 ∨ overallChangeRel w ≤ 1/10)

instance (w : List ScanData) : Decidable (plateauCond w) := by
  unfold plateauCond; infer_instance

/-- Reason text of the plateau→jump→plateau rule with its 6-value view trace. -/
def plateauTrace (w : List ScanData) : String :=
  "\nsuspicious plateau → jump → plateau pattern (views: " ++ toString (wv w 0)
    ++ " → " ++ toString (wv w 1) ++ " → " ++ toString (wv w 2) ++ " → "
    ++ toString (wv w 3) ++ " → " ++ toString (wv w 4) ++ " → " ++ toString (wv w 5) ++ ")"

/-- PLATEAU PATTERN DETECTION, first pattern. -/
def plateauPatternStep (w : List ScanData) (st : BotDetectorAlgoResponse) :
    BotDetectorAlgoResponse :=
  if plateauCond w then ⟨true, st.bottedReason ++ plateauTrace w⟩ else st

/-- Firing condition of the SMALL-PLATEAU STEP PATTERN:
`twoPlateau && smallJump && bigJump && highPlateau3`. -/
def stairCond (w : List ScanData) : Prop :=
  isPlateau (wv w 0) (wv w 1)
  ∧ 300 ≤ wv w 2 - wv w 1
  ∧ (500 ≤ wv w 3 - wv w 2 ∧ wv w 2 - wv w 1 < wv w 3 - wv w 2)
  ∧ (isPlateau (wv w 3) (wv w 4) ∧ isPlateau (wv w 4) (wv w 5))

instance (w : List ScanData) : Decidable (stairCond w) := by
  unfold stairCond; infer_instance

/-- Reason text of the small-plateau-step rule. -/
def stairTrace (w : List ScanData) : String :=
  "\nsmall plateau-step pattern: plateau → small jump (+" ++ toString (wv w 2 - wv w 1)
    ++ ") → jump (+" ++ toString (wv w 3 - wv w 2) ++ ") → plateau (views: "
    ++ toString (wv w 0) ++ " → " ++ toString (wv w 1) ++ " → " ++ toString (wv w 2)
    ++ " → " ++ toString (wv w 3) ++ " → " ++ toString (wv w 4) ++ " → "
    ++ toString (wv w 5) ++ ")"

/-- SMALL-PLATEAU STEP PATTERN. -/
def stairStepStep (w : List ScanData) (st : BotDetectorAlgoResponse) :
    BotDetectorAlgoResponse :=
  if stairCond w then ⟨true, st.bottedReason ++ stairTrace w⟩ else st

/-- Outer guard of PLATEAU PATTERN DETECTION:
platform is not youtube, `allScans` is present with length at least 6, and
a numeric `scanIndex` is supplied. -/
def windowGuard (p : Props) : Prop :=
  p.platform ≠ "youtube" ∧ p.allScans.isSome = true
  ∧ 6 ≤ (p.allScans.getD []).length ∧ p.scanIndex.isSome = true

instance (p : Props) : Decidable (windowGuard p) := by unfold windowGuard; infer_instance

/-- The window the block slices out of `allScans`. -/
def propsWindow (p : Props) : List ScanData :=
  windowOf (p.allScans.getD []) (p.scanIndex.getD 0)

/-- PLATEAU PATTERN DETECTION block.  The source wraps the body in
`try { ... } catch`, guarding JavaScript runtime exceptions; the embedded
body is a total function, so the catch branch has no counterpart here. -/
def windowPatternsStep (p : Props) (st : BotDetectorAlgoResponse) : BotDetectorAlgoResponse :=
  if windowGuard p then
    stairStepStep (propsWindow p) (plateauPatternStep (propsWindow p) st)
  else st

/-- The engine copy of `detectBotAlgo` (lines 24-329) as the sequential
composition of its rule blocks in source order, from an arbitrary starting
accumulator.  The `logNotes` block (zero comments / low comment ratio) only
writes console notes and never touches the accumulator, so it has no step. -/
def enginePipe (p : Props) (st0 : BotDetectorAlgoResponse) : BotDetectorAlgoResponse :=
  let st1 := earlyJumpStep p st0
  let st2 := likesDoubledStep p st1
  let st3 := likesFrozenStep p st2
  let st4 := likesSpikeStep p st3
  let st5 := sharesSavesStep p st4
  let st6 := sharesZeroJumpStep p st5
  let st7 := savesZeroJumpStep p st6
  let st8 := tiktokZeroSavesStep p st7
  let st9 := tiktokZeroSharesStep p st8
  let st10 := zeroLikesStep p st9
  let st11 := snapUltraLowStep p st10
  let st12 := likeRatioCollapseStep p st11
  let st13 := commentDropStep p st12
  let st14 := commentJumpFlatStep p st13
  let st15 := commentInjectionStep p st14
  windowPatternsStep p st15

/-- The engine copy of `detectBotAlgo`: reject flag false, reason empty,
then all rule blocks in order. -/
def detectBotAlgo (p : Props) : BotDetectorAlgoResponse := enginePipe p ⟨false, ""⟩

/-- The runner copy of `detectBotAlgo` (lines 382-630 of the same file).  Its
rule blocks are textually identical to those of the engine copy except that the
leading-zero count with the early-20k-view-jump rule and the two
TikTok zero-saves/zero-shares rules are absent. -/
def runnerPipe (p : Props) (st0 : BotDetectorAlgoResponse) : BotDetectorAlgoResponse :=
  let st1 := likesDoubledStep p st0
  let st2 := likesFrozenStep p st1
  let st3 := likesSpikeStep p st2
  let st4 := sharesSavesStep p st3
  let st5 := sharesZeroJumpStep p st4
  let st6 := savesZeroJumpStep p st5
  let st7 := zeroLikesStep p st6
  let st8 := snapUltraLowStep p st7
  let st9 := likeRatioCollapseStep p st8
  let st10 := commentDropStep p st9
  let st11 := commentJumpFlatStep p st10
  let st12 := commentInjectionStep p st11
  windowPatternsStep p st12

/-- The runner copy of `detectBotAlgo`. -/
def runnerDetectBotAlgo (p : Props) : BotDetectorAlgoResponse := runnerPipe p ⟨false, ""⟩

/-- Summary line pushed by `summarizeZeroLikes`. -/
def zeroLikesRunMsg (a b n : Nat) : String :=
  "Scans " ++ toString a ++ "–" ++ toString b ++ ": zero likes across "
    ++ toString n ++ " scans (may be hidden likes)"

/-- The per-scan condition of `summarizeZeroLikes`:
`s.views > minViews && s.likes === 0`. -/
def zeroLikeRunCond (minViews : ℚ) (s : ScanData) : Prop :=
  minViews < s.views ∧ s.likes = 0

instance (minViews : ℚ) (s : ScanData) : Decidable (zeroLikeRunCond minViews s) := by
  unfold zeroLikeRunCond; infer_instance

/-- The scanning loop of `summarizeZeroLikes`: `i` is the absolute index of
the head of the remaining list, `start` the pending run start, `msgs` the
accumulated lines, `total` the full series length (used to close a trailing
run). -/
def summarizeZeroLikesGo (minViews : ℚ) (minRun total : Nat) :
    List ScanData → Nat → Option Nat → List String → List String
  | [], _, start, msgs =>
    match start with
    | some s => if minRun ≤ total - s then msgs ++ [zeroLikesRunMsg (s + 1) total (total - s)] else msgs
    | none => msgs
  | sc :: rest, i, start, msgs =>
    if zeroLikeRunCond minViews sc then
      summarizeZeroLikesGo minViews minRun total rest (i + 1) (some (start.getD i)) msgs
    else
      match start with
      | some s =>
        summarizeZeroLikesGo minViews minRun total rest (i + 1) none
          (if minRun ≤ i - s then msgs ++ [zeroLikesRunMsg (s + 1) i (i - s)] else msgs)
      | none => summarizeZeroLikesGo minViews minRun total rest (i + 1) none msgs

/-- Function `summarizeZeroLikes` of the runner (the unused `_platform` parameter is
dropped): collapse runs of `views > minViews && likes === 0` scans of length
at least `minRun` into one summary line each; a trailing run is also closed. -/
def summarizeZeroLikes (scans : List ScanData) (minViews : ℚ) (minRun : Nat) : List String :=
  summarizeZeroLikesGo minViews minRun scans.length scans 0 none []

/-- Summary line pushed by `summarizeUltraLowEngagement`. -/
def ultraLowRunMsg (a b n : Nat) : String :=
  "Scans " ++ toString a ++ "–" ++ toString b ++ ": ultra-low engagement across "
    ++ toString n ++ " scans (20K+ views with 0 comments and ≤1 shares)"

/-- The per-scan condition of `summarizeUltraLowEngagement`. -/
def ultraLowRunCond (minViews : ℚ) (s : ScanData) : Prop :=
  minViews < s.views ∧ s.comments = 0 ∧ s.shares ≤ 1

instance (minViews : ℚ) (s : ScanData) : Decidable (ultraLowRunCond minViews s) := by
  unfold ultraLowRunCond; infer_instance

/-- The scanning loop of `summarizeUltraLowEngagement`. -/
def summarizeUltraLowGo (minViews : ℚ) (minRun total : Nat) :
    List ScanData → Nat → Option Nat → List String → List String
  | [], _, start, msgs =>
    match start with
    | some s => if minRun ≤ total - s then msgs ++ [ultraLowRunMsg (s + 1) total (total - s)] else msgs
    | none => msgs
  | sc :: rest, i, start, msgs =>
    if ultraLowRunCond minViews sc then
      summarizeUltraLowGo minViews minRun total rest (i + 1) (some (start.getD i)) msgs
    else
      match start with
      | some s =>
        summarizeUltraLowGo minViews minRun total rest (i + 1) none
          (if minRun ≤ i - s then msgs ++ [ultraLowRunMsg (s + 1) i (i - s)] else msgs)
      | none => summarizeUltraLowGo minViews minRun total rest (i + 1) none msgs

/-- Function `summarizeUltraLowEngagement` of the runner: Snapchat only. -/
def summarizeUltraLowEngagement (scans : List ScanData) (platform : String)
    (minViews : ℚ) (minRun : Nat) : List String :=
  if platform ≠ "snapchat" then []
  else summarizeUltraLowGo minViews minRun scans.length scans 0 none []

/-- Summary line pushed by `summarizeZeroComments`. -/
def zeroCommentsRunMsg (a b n : Nat) : String :=
  "Scans " ++ toString a ++ "–" ++ toString b ++ ": zero comments across "
    ++ toString n ++ " scans (5K+ views with 0 comments)"

/-- The per-scan condition of `summarizeZeroComments`. -/
def zeroCommentsRunCond (minViews : ℚ) (s : ScanData) : Prop :=
  minViews < s.views ∧ s.comments = 0

instance (minViews : ℚ) (s : ScanData) : Decidable (zeroCommentsRunCond minViews s) := by
  unfold zeroCommentsRunCond; infer_instance

/-- The scanning loop of `summarizeZeroComments`. -/
def summarizeZeroCommentsGo (minViews : ℚ) (minRun total : Nat) :
    List ScanData → Nat → Option Nat → List String → List String
  | [], _, start, msgs =>
    match start with
    | some s => if minRun ≤ total - s then msgs ++ [zeroCommentsRunMsg (s + 1) total (total - s)] else msgs
    | none => msgs
  | sc :: rest, i, start, msgs =>
    if zeroCommentsRunCond minViews sc then
      summarizeZeroCommentsGo minViews minRun total rest (i + 1) (some (start.getD i)) msgs
    else
      match start with
      | some s =>
        summarizeZeroCommentsGo minViews minRun total rest (i + 1) none
          (if minRun ≤ i - s then msgs ++ [zeroCommentsRunMsg (s + 1) i (i - s)] else msgs)
      | none => summarizeZeroCommentsGo minViews minRun total rest (i + 1) none msgs

/-- Function `summarizeZeroComments` of the runner (unused `_platform` dropped). -/
def summarizeZeroComments (scans : List ScanData) (minViews : ℚ) (minRun : Nat) : List String :=
  summarizeZeroCommentsGo minViews minRun scans.length scans 0 none []

/-- Summary line pushed by the low-comment-ratio summarizer (`toFixed(2)` of
`threshold * 100` rendered with `toString`). -/
def lowCommentFracRunMsg (threshold : ℚ) (a b n : Nat) : String :=
  "Scans " ++ toString a ++ "–" ++ toString b ++ ": low comment ratio across "
    ++ toString n ++ " scans (5K+ views with <" ++ toString (threshold * 100)
    ++ "% comment ratio)"

/-- The per-scan condition of the low-comment-ratio summarizer:
`s.views > minViews && (s.comments / s.views) < threshold`. -/
def lowCommentFracRunCond (minViews threshold : ℚ) (s : ScanData) : Prop :=
  minViews < s.views ∧ s.comments / s.views < threshold

instance (minViews threshold : ℚ) (s : ScanData) :
    Decidable (lowCommentFracRunCond minViews threshold s) := by
  unfold lowCommentFracRunCond; infer_instance

/-- The scanning loop of the low-comment-ratio summarizer. -/
def summarizeLowCommentFracGo (minViews threshold : ℚ) (minRun total : Nat) :
    List ScanData → Nat → Option Nat → List String → List String
  | [], _, start, msgs =>
    match start with
    | some s =>
      if minRun ≤ total - s then msgs ++ [lowCommentFracRunMsg threshold (s + 1) total (total - s)]
      else msgs
    | none => msgs
  | sc :: rest, i, start, msgs =>
    if lowCommentFracRunCond minViews threshold sc then
      summarizeLowCommentFracGo minViews threshold minRun total rest (i + 1) (some (start.getD i)) msgs
    else
      match start with
      | some s =>
        summarizeLowCommentFracGo minViews threshold minRun total rest (i + 1) none
          (if minRun ≤ i - s then msgs ++ [lowCommentFracRunMsg threshold (s + 1) i (i - s)] else msgs)
      | none => summarizeLowCommentFracGo minViews threshold minRun total rest (i + 1) none msgs

/-- Function `summarizeLowCommentRatio` of the runner (unused `_platform` dropped; the
name avoids a suffix clash with a reserved word). -/
def summarizeLowCommentFrac (scans : List ScanData) (minViews : ℚ) (minRun : Nat)
    (threshold : ℚ) : List String :=
  summarizeLowCommentFracGo minViews threshold minRun scans.length scans 0 none []

/-- Zero-valued scan used as the (unreachable) default for in-range list
accesses in the drivers. -/
def defaultScan : ScanData := ⟨0, 0, 0, 0, 0, false⟩

/-- Entry type of the `perScan` field of `AnalysisResult`. -/
structure PerScanEntry where
  index : Nat
  reasons : List String
deriving DecidableEq

/-- Record `AnalysisResult` of the runner.  The `url` field is supplied by the
fetch layer, which is outside the engine, and is omitted here. -/
structure AnalysisResult where
  platform : String
  scanCount : Nat
  flagged : List String
  perScan : List PerScanEntry
  zeroCommentSummaries : Option (List String)
  lowCommentRatioSummaries : Option (List String)
deriving DecidableEq

/-- One transition of the pairwise loop of `analyzeUrl`: run the runner copy of
the algorithm on `validScans[i-1] → validScans[i]` and split the reason text
into trimmed non-empty fragments. -/
def transitionReasons (platform : String) (valid : List ScanData) (logNotes : Bool)
    (i : Nat) : Bool × List String :=
  let r := runnerDetectBotAlgo
    ⟨(valid.get? (i - 1)).getD defaultScan, (valid.get? i).getD defaultScan,
     platform, some i, some valid, logNotes⟩
  (r.shouldReject, ((r.bottedReason.splitOn "\n").map String.trim).filter (· ≠ ""))

/-- The per-transition report line of `analyzeUrl`. -/
def scanLine (i : Nat) (reasons : List String) : String :=
  if reasons.length ≠ 0 then
    "Scan " ++ toString i ++ ": Anomalie : " ++ String.intercalate "; " reasons
  else "Scan " ++ toString i ++ ": No anomalies"

/-- The pairwise loop of `analyzeUrl` over `i = 1 .. validScans.length - 1`,
accumulating the `flagged` lines (only when `shouldReject` and some reason
fragment exists) and the `perScan` entries. -/
def analyzeLoop (platform : String) (valid : List ScanData) (logNotes : Bool) :
    List String × List PerScanEntry :=
  ((List.range valid.length).drop 1).foldl
    (fun acc i =>
      let tr := transitionReasons platform valid logNotes i
      (if tr.1 = true ∧ tr.2.length ≠ 0 then acc.1 ++ [scanLine i tr.2] else acc.1,
       acc.2 ++ [⟨i, tr.2⟩]))
    ([], [])

/-- Model of the `/\bzero likes\b/.test(line)` filter: a substring test.
Every line the loop can produce contains the words with boundaries exactly
when the substring occurs. -/
def zeroLikesLineTest (line : String) : Bool := 1 < (line.splitOn "zero likes").length

/-- Model of the `/\bultra-low engagement\b/.test(line)` filter. -/
def ultraLowLineTest (line : String) : Bool := 1 < (line.splitOn "ultra-low engagement").length

/-- The analysis core of `analyzeUrl` (lines 876-957): everything after the
fetch and HTML parsing, starting from the parsed scan list.  A series with no
valid (non-missing) scans raises `Error("No scans found.")`, modelled as
`Except.error`. -/
def analyzeUrlCore (platform : String) (scans : List ScanData) (logNotes : Bool) :
    Except String AnalysisResult :=
  let valid := scans.filter (fun s => !s.missing)
  if valid.length = 0 then Except.error "No scans found."
  else
    let fp := analyzeLoop platform valid logNotes
    let flagged1 :=
      if platform ∈ ["tiktok", "instagram", "youtube"] then
        let zl := summarizeZeroLikes valid 1000 5
        if zl.length ≠ 0 then (fp.1.filter (fun l => !(zeroLikesLineTest l))) ++ zl else fp.1
      else fp.1
    let flagged2 :=
      if platform = "snapchat" then
        let ul := summarizeUltraLowEngagement valid platform 20000 3
        if ul.length ≠ 0 then (flagged1.filter (fun l => !(ultraLowLineTest l))) ++ ul else flagged1
      else flagged1
    let zc := if platform ∈ ["tiktok", "instagram", "youtube"] then
        some (summarizeZeroComments valid 5000 3) else none
    let lc := if platform ∈ ["tiktok", "instagram", "youtube"] then
        some (summarizeLowCommentFrac valid 5000 3 (1/100)) else none
    Except.ok ⟨platform, scans.length, flagged2, fp.2, zc, lc⟩

/-- The decision core of `detectBotDuringScan` (src/unnamed/part_000), with
the database retrieval and the note persistence stripped: the function
receives the ordered scan list it would have loaded for the platform of the
submission.  Fewer than 2 scans short-circuits with a bare `return`, i.e. the
promise resolves to `undefined` rather than a boolean verdict — modelled as
`none`.  Otherwise the engine copy of `detectBotAlgo` runs on every
transition and the verdict is the disjunction of the per-transition flags. -/
def detectBotDuringScan (platform : String) (scans : List ScanData) : Option Bool :=
  if scans.length < 2 then none
  else
    some (((List.range scans.length).drop 1).foldl
      (fun acc i =>
        acc || (detectBotAlgo
          ⟨(scans.get? (i - 1)).getD defaultScan, (scans.get? i).getD defaultScan,
           (if platform = "youtube-short" then "youtube" else platform),
           some i, some scans, false⟩).shouldReject)
      false)

/-! ### Accumulator invariants

Every rule block either leaves the accumulator unchanged, or sets the reject
flag while appending a non-empty reason fragment, or (Snapchat ultra-low
engagement only) sets the flag while leaving the reason unchanged. -/

theorem string_length_pos_of_ne (s : String) (h : s ≠ "") : 0 < s.length := by
  cases s with
  | mk data =>
    cases data with
    | nil => exact absurd rfl h
    | cons a l => simp [String.length]

theorem append_ne_of_left (s t : String) (h : s ≠ "") : s ++ t ≠ "" := by
  intro he
  have hlen : s.length + t.length = 0 := by
    rw [← String.length_append, he]
    rfl
  have := string_length_pos_of_ne s h
  omega

/-- The three shapes a rule block can take as a function of the accumulator,
relative to the silent-flag condition `q`. -/
def GoodTrans (q : Prop) (f : BotDetectorAlgoResponse → BotDetectorAlgoResponse) : Prop :=
  ∀ st, f st = st
    ∨ ((f st).shouldReject = true ∧ ∃ m, m ≠ "" ∧ (f st).bottedReason = st.bottedReason ++ m)
    ∨ ((f st).shouldReject = true ∧ (f st).bottedReason = st.bottedReason ∧ q)

theorem goodTrans_comp {q : Prop} {f g : BotDetectorAlgoResponse → BotDetectorAlgoResponse}
    (hf : GoodTrans q f) (hg : GoodTrans q g) : GoodTrans q (fun st => g (f st)) := by
  intro st
  dsimp only
  rcases hf st with h1 | ⟨hr1, m1, hm1, hb1⟩ | ⟨hr1, hb1, hq1⟩
  · rw [h1]
    exact hg st
  · rcases hg (f st) with h2 | ⟨hr2, m2, hm2, hb2⟩ | ⟨hr2, hb2, hq2⟩
    · rw [h2]
      right; left
      exact ⟨hr1, m1, hm1, hb1⟩
    · right; left
      refine ⟨hr2, m1 ++ m2, append_ne_of_left m1 m2 hm1, ?_⟩
      rw [hb2, hb1, String.append_assoc]
    · right; left
      refine ⟨hr2, m1, hm1, ?_⟩
      rw [hb2, hb1]
  · rcases hg (f st) with h2 | ⟨hr2, m2, hm2, hb2⟩ | ⟨hr2, hb2, hq2⟩
    · rw [h2]
      right; right
      exact ⟨hr1, hb1, hq1⟩
    · right; left
      refine ⟨hr2, m2, hm2, ?_⟩
      rw [hb2, hb1]
    · right; right
      refine ⟨hr2, ?_, hq2⟩
      rw [hb2, hb1]

theorem goodTrans_ite (q c : Prop) [Decidable c]
    {f : BotDetectorAlgoResponse → BotDetectorAlgoResponse} (hf : GoodTrans q f) :
    GoodTrans q (fun st => if c then f st else st) := by
  intro st
  by_cases h : c
  · simpa [h] using hf st
  · left
    simp [h]

theorem ite_append_goodTrans (q c : Prop) [Decidable c] (msg : String) (hm : msg ≠ "") :
    GoodTrans q (fun st => if c then ⟨true, st.bottedReason ++ msg⟩ else st) := by
  intro st
  by_cases h : c
  · right; left
    refine ⟨?_, msg, hm, ?_⟩ <;> simp [h]
  · left
    simp [h]

theorem appearedMsg_ne (metric : String) (c : ℚ) : appearedMsg metric c ≠ "" := by
  unfold appearedMsg
  repeat apply append_ne_of_left
  decide

theorem grewMsg_ne (metric : String) : grewMsg metric ≠ "" := by
  unfold grewMsg
  repeat apply append_ne_of_left
  decide

theorem likeRatioMsg_ne (p : Props) : likeRatioMsg p ≠ "" := by
  unfold likeRatioMsg
  repeat apply append_ne_of_left
  decide

theorem commentDropMsg_ne (p : Props) : commentDropMsg p ≠ "" := by
  unfold commentDropMsg
  repeat apply append_ne_of_left
  decide

theorem commentJumpFlatMsg_ne (p : Props) : commentJumpFlatMsg p ≠ "" := by
  unfold commentJumpFlatMsg
  repeat apply append_ne_of_left
  decide

theorem commentInjectionMsg_ne (p : Props) : commentInjectionMsg p ≠ "" := by
  unfold commentInjectionMsg
  repeat apply append_ne_of_left
  decide

theorem plateauTrace_ne (w : List ScanData) : plateauTrace w ≠ "" := by
  unfold plateauTrace
  repeat apply append_ne_of_left
  decide

theorem stairTrace_ne (w : List ScanData) : stairTrace w ≠ "" := by
  unfold stairTrace
  repeat apply append_ne_of_left
  decide

theorem checkAnomaly_goodTrans (q : Prop) (p : Props) (metric : String) (cu pr g t : ℚ) :
    GoodTrans q (fun st => checkAnomaly p metric cu pr g t st) := by
  intro st
  unfold checkAnomaly
  split_ifs with h1 h2
  · right; left
    exact ⟨rfl, appearedMsg metric cu, appearedMsg_ne metric cu, rfl⟩
  · right; left
    exact ⟨rfl, grewMsg metric, grewMsg_ne metric, rfl⟩
  · left
    rfl

theorem sharesSavesStep_goodTrans (q : Prop) (p : Props) :
    GoodTrans q (fun st => sharesSavesStep p st) := by
  have hsh : GoodTrans q (fun st =>
      if ¬ glitchShares p then
        checkAnomaly p "shares" (getEffectivePair p .shares).curr (getEffectivePair p .shares).prev (6/5) 3
          (checkAnomaly p "shares" (getEffectivePair p .shares).curr (getEffectivePair p .shares).prev 2 10 st)
      else st) :=
    goodTrans_ite q _ (goodTrans_comp (checkAnomaly_goodTrans q p "shares" _ _ 2 10)
      (checkAnomaly_goodTrans q p "shares" _ _ (6/5) 3))
  have hsv : GoodTrans q (fun st =>
      if ¬ glitchSaves p then
        checkAnomaly p "saves" (getEffectivePair p .saves).curr (getEffectivePair p .saves).prev (6/5) 3
          (checkAnomaly p "saves" (getEffectivePair p .saves).curr (getEffectivePair p .saves).prev 2 10 st)
      else st) :=
    goodTrans_ite q _ (goodTrans_comp (checkAnomaly_goodTrans q p "saves" _ _ 2 10)
      (checkAnomaly_goodTrans q p "saves" _ _ (6/5) 3))
  exact goodTrans_ite q _ (goodTrans_comp hsh hsv)

theorem windowPatternsStep_goodTrans (q : Prop) (p : Props) :
    GoodTrans q (fun st => windowPatternsStep p st) :=
  goodTrans_ite q _ (goodTrans_comp
    (ite_append_goodTrans q (plateauCond (propsWindow p)) (plateauTrace (propsWindow p))
      (plateauTrace_ne (propsWindow p)))
    (ite_append_goodTrans q (stairCond (propsWindow p)) (stairTrace (propsWindow p))
      (stairTrace_ne (propsWindow p))))

theorem snapUltraLowStep_goodTrans (p : Props) :
    GoodTrans (snapUltraCond p) (fun st => snapUltraLowStep p st) := by
  intro st
  by_cases h : snapUltraCond p
  · right; right
    refine ⟨?_, ?_, h⟩ <;> simp [snapUltraLowStep, h]
  · left
    simp [snapUltraLowStep, h]

theorem enginePipe_goodTrans (p : Props) :
    GoodTrans (snapUltraCond p) (fun st => enginePipe p st) := by
  have g1 : GoodTrans (snapUltraCond p) (fun st => earlyJumpStep p st) :=
    ite_append_goodTrans _ (earlyJumpCond p) _ (by decide)
  have g2 : GoodTrans (snapUltraCond p) (fun st => likesDoubledStep p st) :=
    ite_append_goodTrans _ (likesDoubledCond p) _ (by decide)
  have g3 : GoodTrans (snapUltraCond p) (fun st => likesFrozenStep p st) :=
    ite_append_goodTrans _ (likesFrozenCond p) _ (by decide)
  have g4 : GoodTrans (snapUltraCond p) (fun st => likesSpikeStep p st) :=
    ite_append_goodTrans _ (likesSpikeCond p) _ (by decide)
  have g5 : GoodTrans (snapUltraCond p) (fun st => sharesSavesStep p st) :=
    sharesSavesStep_goodTrans _ p
  have g6 : GoodTrans (snapUltraCond p) (fun st => sharesZeroJumpStep p st) :=
    ite_append_goodTrans _ (sharesZeroJumpCond p) _ (by decide)
  have g7 : GoodTrans (snapUltraCond p) (fun st => savesZeroJumpStep p st) :=
    ite_append_goodTrans _ (savesZeroJumpCond p) _ (by decide)
  have g8 : GoodTrans (snapUltraCond p) (fun st => tiktokZeroSavesStep p st) :=
    ite_append_goodTrans _ (tiktokZeroSavesCond p) _ (by decide)
  have g9 : GoodTrans (snapUltraCond p) (fun st => tiktokZeroSharesStep p st) :=
    ite_append_goodTrans _ (tiktokZeroSharesCond p) _ (by decide)
  have g10 : GoodTrans (snapUltraCond p) (fun st => zeroLikesStep p st) :=
    ite_append_goodTrans _ (zeroLikesCond p) _ (by decide)
  have g11 : GoodTrans (snapUltraCond p) (fun st => snapUltraLowStep p st) :=
    snapUltraLowStep_goodTrans p
  have g12 : GoodTrans (snapUltraCond p) (fun st => likeRatioCollapseStep p st) :=
    ite_append_goodTrans _ (likeRatioCollapseCond p) _ (likeRatioMsg_ne p)
  have g13 : GoodTrans (snapUltraCond p) (fun st => commentDropStep p st) :=
    ite_append_goodTrans _ (commentDropCond p) _ (commentDropMsg_ne p)
  have g14 : GoodTrans (snapUltraCond p) (fun st => commentJumpFlatStep p st) :=
    ite_append_goodTrans _ (commentJumpFlatCond p) _ (commentJumpFlatMsg_ne p)
  have g15 : GoodTrans (snapUltraCond p) (fun st => commentInjectionStep p st) :=
    ite_append_goodTrans _ (commentInjectionCond p) _ (commentInjectionMsg_ne p)
  have g16 : GoodTrans (snapUltraCond p) (fun st => windowPatternsStep p st) :=
    windowPatternsStep_goodTrans _ p
  have h := goodTrans_comp (goodTrans_comp (goodTrans_comp (goodTrans_comp (goodTrans_comp
    (goodTrans_comp (goodTrans_comp (goodTrans_comp (goodTrans_comp (goodTrans_comp
    (goodTrans_comp (goodTrans_comp (goodTrans_comp (goodTrans_comp (goodTrans_comp
    g1 g2) g3) g4) g5) g6) g7) g8) g9) g10) g11) g12) g13) g14) g15) g16
  intro st
  have h' := h st
  simpa only [enginePipe] using h'

theorem append_ne_of_right (s t : String) (h : t ≠ "") : s ++ t ≠ "" := by
  intro he
  have hlen : s.length + t.length = 0 := by
    rw [← String.length_append, he]
    rfl
  have := string_length_pos_of_ne t h
  omega

/-- C10: for every input to the engine copy of `detectBotAlgo`, a non-empty
returned `bottedReason` implies `shouldReject = true`: every rule that appends
a reason fragment also raises the reject flag in the same branch. -/
theorem c10_reason_implies_reject (p : Props) :
    (detectBotAlgo p).bottedReason ≠ "" → (detectBotAlgo p).shouldReject = true := by
  intro hne
  rcases enginePipe_goodTrans p ⟨false, ""⟩ with h | ⟨hr, -, -, -⟩ | ⟨hr, -, -⟩
  · have hd : detectBotAlgo p = ⟨false, ""⟩ := h
    rw [hd] at hne
    exact absurd rfl hne
  · exact hr
  · exact hr

/-- Concrete input for the C10 witness: TikTok with 5000 views and zero
saves; the TikTok zero-saves rule fires with a reason fragment. -/
def c10x : Props :=
  ⟨⟨4000, 40, 5, 5, 5, false⟩, ⟨5000, 50, 0, 6, 6, false⟩, "tiktok", none, none, false⟩

theorem c10_reason_implies_reject_witness :
    (detectBotAlgo c10x).bottedReason ≠ "" ∧ (detectBotAlgo c10x).shouldReject = true := by
  have hev : detectBotAlgo c10x = ⟨true, "\nzero saves at 5k+ views (TikTok)"⟩ := by
    norm_num +decide [detectBotAlgo, enginePipe, earlyJumpStep, earlyJumpCond, likesDoubledStep,
      likesDoubledCond, likesFrozenStep, likesFrozenCond, likesSpikeStep, likesSpikeCond,
      sharesSavesStep, checkAnomaly, sharesZeroJumpStep, sharesZeroJumpCond,
      savesZeroJumpStep, savesZeroJumpCond, tiktokZeroSavesStep, tiktokZeroSavesCond,
      tiktokZeroSharesStep, tiktokZeroSharesCond, zeroLikesStep, zeroLikesCond,
      snapUltraLowStep, snapUltraCond, likeRatioCollapseStep, likeRatioCollapseCond,
      commentDropStep, commentDropCond, commentJumpFlatStep, commentJumpFlatCond,
      commentInjectionStep, commentInjectionCond, windowPatternsStep, windowGuard,
      matureScan, leadingZeroCount, countLeadingZeroViews, glitchLikes, glitchComments,
      glitchSaves, glitchShares, glitchOn, nextScan, prevPrevScan, optMetric, optViews,
      getEffectivePair, ScanData.metric, prevLikeFrac, currLikeFrac, maxQ, absQ,
      viewJumpFactor, commentJumpFactor, c10x]
  have hne : (detectBotAlgo c10x).bottedReason ≠ "" := by
    rw [hev]
    decide
  exact ⟨hne, c10_reason_implies_reject c10x hne⟩

/-- C1 (amended): whenever the engine copy sets `shouldReject`, either some
rule appended a non-empty reason fragment or the Snapchat ultra-low
engagement rule (which raises the flag silently) fired. -/
theorem c1_reject_implies_reason_or_snapchat (p : Props) :
    (detectBotAlgo p).shouldReject = true →
    (detectBotAlgo p).bottedReason ≠ "" ∨ snapUltraCond p := by
  intro hr
  rcases enginePipe_goodTrans p ⟨false, ""⟩ with h | ⟨-, m, hm, hb⟩ | ⟨-, -, hq⟩
  · have hd : detectBotAlgo p = ⟨false, ""⟩ := h
    rw [hd] at hr
    exact absurd hr (by decide)
  · left
    have hb' : (detectBotAlgo p).bottedReason = "" ++ m := hb
    rw [hb']
    exact append_ne_of_right "" m hm
  · right
    exact hq

/-- Concrete input refuting C1 as stated: Snapchat, 25000 views, zero
comments, one share.  The ultra-low engagement rule rejects, yet no rule
appends any text, so `bottedReason` is empty while `shouldReject` is true. -/
def c1x : Props :=
  ⟨⟨10000, 0, 0, 0, 0, false⟩, ⟨25000, 0, 0, 1, 0, false⟩, "snapchat", some 1, none, false⟩

theorem c1_silent_reject_cex : detectBotAlgo c1x = ⟨true, ""⟩ := by
  norm_num +decide [detectBotAlgo, enginePipe, earlyJumpStep, earlyJumpCond, likesDoubledStep,
    likesDoubledCond, likesFrozenStep, likesFrozenCond, likesSpikeStep, likesSpikeCond,
    sharesSavesStep, checkAnomaly, sharesZeroJumpStep, sharesZeroJumpCond,
    savesZeroJumpStep, savesZeroJumpCond, tiktokZeroSavesStep, tiktokZeroSavesCond,
    tiktokZeroSharesStep, tiktokZeroSharesCond, zeroLikesStep, zeroLikesCond,
    snapUltraLowStep, snapUltraCond, likeRatioCollapseStep, likeRatioCollapseCond,
    commentDropStep, commentDropCond, commentJumpFlatStep, commentJumpFlatCond,
    commentInjectionStep, commentInjectionCond, windowPatternsStep, windowGuard,
    matureScan, leadingZeroCount, countLeadingZeroViews, glitchLikes, glitchComments,
    glitchSaves, glitchShares, glitchOn, nextScan, prevPrevScan, optMetric, optViews,
    getEffectivePair, ScanData.metric, prevLikeFrac, currLikeFrac, maxQ, absQ,
    viewJumpFactor, commentJumpFactor, c1x]

/-- Concrete input for the C1 witness (TikTok zero-saves rejection with a
reason fragment). -/
def c1w : Props :=
  ⟨⟨4000, 40, 5, 5, 5, false⟩, ⟨5000, 50, 0, 6, 6, false⟩, "tiktok", none, none, false⟩

theorem c1_reject_witness :
    (detectBotAlgo c1w).shouldReject = true
    ∧ ((detectBotAlgo c1w).bottedReason ≠ "" ∨ snapUltraCond c1w) := by
  have hev : detectBotAlgo c1w = ⟨true, "\nzero saves at 5k+ views (TikTok)"⟩ := by
    norm_num +decide [detectBotAlgo, enginePipe, earlyJumpStep, earlyJumpCond, likesDoubledStep,
      likesDoubledCond, likesFrozenStep, likesFrozenCond, likesSpikeStep, likesSpikeCond,
      sharesSavesStep, checkAnomaly, sharesZeroJumpStep, sharesZeroJumpCond,
      savesZeroJumpStep, savesZeroJumpCond, tiktokZeroSavesStep, tiktokZeroSavesCond,
      tiktokZeroSharesStep, tiktokZeroSharesCond, zeroLikesStep, zeroLikesCond,
      snapUltraLowStep, snapUltraCond, likeRatioCollapseStep, likeRatioCollapseCond,
      commentDropStep, commentDropCond, commentJumpFlatStep, commentJumpFlatCond,
      commentInjectionStep, commentInjectionCond, windowPatternsStep, windowGuard,
      matureScan, leadingZeroCount, countLeadingZeroViews, glitchLikes, glitchComments,
      glitchSaves, glitchShares, glitchOn, nextScan, prevPrevScan, optMetric, optViews,
      getEffectivePair, ScanData.metric, prevLikeFrac, currLikeFrac, maxQ, absQ,
      viewJumpFactor, commentJumpFactor, c1w]
  have hr : (detectBotAlgo c1w).shouldReject = true := by
    rw [hev]
  exact ⟨hr, c1_reject_implies_reason_or_snapchat c1w hr⟩

/-- The "views doubled, likes flat" firing condition exactly as the rule
table of the spec states it, with the non-strict bound `curr ≤ 1.2·prev` (`1.2` as
the rational `6/5`), over the bridged likes pair. -/
def likesDoubledCondSpec (p : Props) : Prop :=
  1000 < (getEffectivePair p .likes).currViews
  ∧ 2 * (getEffectivePair p .likes).prevViews < (getEffectivePair p .likes).currViews
  ∧ (getEffectivePair p .likes).curr ≤ (getEffectivePair p .likes).prev * (6/5)

/-- Boundary input refuting C2 as stated: likes 10 → 12 with views 500 → 2000
on TikTok, so `curr = 1.2·prev` exactly.  The spec-side condition holds, but
the strict `<` of the source does not, so the rule does not fire and nothing
rejects. -/
def c2x : Props :=
  ⟨⟨500, 10, 2, 1, 5, false⟩, ⟨2000, 12, 3, 2, 6, false⟩, "tiktok", some 1, none, false⟩

theorem c2_boundary_cex :
    likesDoubledCondSpec c2x ∧ ¬ likesDoubledCond c2x ∧ detectBotAlgo c2x = ⟨false, ""⟩ := by
  refine ⟨?_, ?_, ?_⟩
  · norm_num +decide [likesDoubledCondSpec, getEffectivePair, nextScan, prevPrevScan,
      optMetric, optViews, ScanData.metric, c2x]
  · norm_num +decide [likesDoubledCond, getEffectivePair, nextScan, prevPrevScan,
      optMetric, optViews, ScanData.metric, c2x]
  · norm_num +decide [detectBotAlgo, enginePipe, earlyJumpStep, earlyJumpCond, likesDoubledStep,
      likesDoubledCond, likesFrozenStep, likesFrozenCond, likesSpikeStep, likesSpikeCond,
      sharesSavesStep, checkAnomaly, sharesZeroJumpStep, sharesZeroJumpCond,
      savesZeroJumpStep, savesZeroJumpCond, tiktokZeroSavesStep, tiktokZeroSavesCond,
      tiktokZeroSharesStep, tiktokZeroSharesCond, zeroLikesStep, zeroLikesCond,
      snapUltraLowStep, snapUltraCond, likeRatioCollapseStep, likeRatioCollapseCond,
      commentDropStep, commentDropCond, commentJumpFlatStep, commentJumpFlatCond,
      commentInjectionStep, commentInjectionCond, windowPatternsStep, windowGuard,
      matureScan, leadingZeroCount, countLeadingZeroViews, glitchLikes, glitchComments,
      glitchSaves, glitchShares, glitchOn, nextScan, prevPrevScan, optMetric, optViews,
      getEffectivePair, ScanData.metric, prevLikeFrac, currLikeFrac, maxQ, absQ,
      viewJumpFactor, commentJumpFactor, c2x]

/-- C2 (amended): on a platform other than youtube and snapchat the "views
doubled, likes flat" rule fires exactly when the bridged likes pair satisfies
`currViews > 1000 ∧ currViews > 2·prevViews ∧ curr < 1.2·prev` with the last
bound strict, i.e. the spec-table condition minus its boundary
`curr = 1.2·prev`. -/
theorem c2_views_doubled_strict (p : Props)
    (h1 : p.platform ≠ "youtube") (h2 : p.platform ≠ "snapchat") :
    likesDoubledCond p ↔
      (likesDoubledCondSpec p
        ∧ (getEffectivePair p .likes).curr ≠ (getEffectivePair p .likes).prev * (6/5)) := by
  unfold likesDoubledCond likesDoubledCondSpec
  constructor
  · rintro ⟨-, -, hc1, hc2, hc3⟩
    exact ⟨⟨hc1, by linarith, le_of_lt hc3⟩, ne_of_lt hc3⟩
  · rintro ⟨⟨hc1, hc2, hc3⟩, hne⟩
    exact ⟨h1, h2, hc1, by linarith, lt_of_le_of_ne hc3 hne⟩

/-- Concrete input for the C2 witness: likes 10 → 11 with views 500 → 2000 on
TikTok, strictly below the 1.2 bound. -/
def c2w : Props :=
  ⟨⟨500, 10, 2, 1, 5, false⟩, ⟨2000, 11, 3, 2, 6, false⟩, "tiktok", some 1, none, false⟩

theorem c2_views_doubled_witness :
    c2w.platform ≠ "youtube" ∧ c2w.platform ≠ "snapchat" ∧ likesDoubledCond c2w
    ∧ (likesDoubledCondSpec c2w
        ∧ (getEffectivePair c2w .likes).curr ≠ (getEffectivePair c2w .likes).prev * (6/5)) := by
  have hspec : likesDoubledCondSpec c2w
      ∧ (getEffectivePair c2w .likes).curr ≠ (getEffectivePair c2w .likes).prev * (6/5) := by
    constructor
    · norm_num +decide [likesDoubledCondSpec, getEffectivePair, nextScan, prevPrevScan,
        optMetric, optViews, ScanData.metric, c2w]
    · norm_num +decide [getEffectivePair, nextScan, prevPrevScan,
        optMetric, optViews, ScanData.metric, c2w]
  exact ⟨by decide, by decide,
    (c2_views_doubled_strict c2w (by decide) (by decide)).mpr hspec, hspec⟩

/-- C3: for any 3-scan series whose likes are `[100, 0, 120]`, evaluated at
transition index 1 with the full series as `allScans`: the likes glitch guard
holds, `getEffectivePair` on likes bridges to `(prev 100, curr 120)` with the
views of the next scan and `bridged = true`, and neither the zero-likes rule nor
the "views grew but <2 likes change" rule can fire (their conditions are
false), whatever the view counts. -/
theorem c3_glitch_suppression (p : Props) (s0 s1 s2 : ScanData)
    (hPrev : p.prevScan = s0) (hCurr : p.currentScan = s1)
    (hAll : p.allScans = some [s0, s1, s2]) (hIdx : p.scanIndex = some 1)
    (h0 : s0.likes = 100) (h1 : s1.likes = 0) (h2 : s2.likes = 120) :
    glitchLikes p
    ∧ getEffectivePair p .likes = ⟨100, 120, s0.views, s2.views, true⟩
    ∧ ¬ zeroLikesCond p
    ∧ ¬ likesFrozenCond p := by
  have hnext : nextScan p = some s2 := by
    unfold nextScan
    rw [hAll, hIdx]
    rfl
  have hcl : p.currentScan.metric .likes = 0 := by
    rw [hCurr]
    exact h1
  have hpl : (0 : ℚ) < p.prevScan.metric .likes := by
    rw [hPrev]
    show (0 : ℚ) < s0.likes
    rw [h0]
    norm_num
  have hnl : (0 : ℚ) < optMetric (nextScan p) .likes := by
    rw [hnext]
    show (0 : ℚ) < s2.likes
    rw [h2]
    norm_num
  have hg : glitchLikes p := by
    unfold glitchLikes glitchOn
    left
    exact ⟨hcl, by rw [hnext]; rfl, hpl, hnl⟩
  refine ⟨hg, ?_, fun hc => hc.2.1 hg, fun hc => hc.2.2.2.1 hg⟩
  unfold getEffectivePair
  rw [if_pos ⟨by rw [hnext]; rfl, hcl, hpl, hnl⟩]
  rw [hnext, hPrev]
  show (⟨s0.likes, s2.likes, s0.views, s2.views, true⟩ : EffPair) = _
  rw [h0, h2]

/-- Concrete scans for the C3 witness. -/
def c3s0 : ScanData := ⟨1500, 100, 3, 2, 10, false⟩

/-- Middle scan of the C3 witness: the likes dropout. -/
def c3s1 : ScanData := ⟨1505, 0, 3, 2, 10, false⟩

/-- Last scan of the C3 witness. -/
def c3s2 : ScanData := ⟨1510, 120, 4, 2, 11, false⟩

/-- The C3 witness call: transition 1 of the series, full series supplied. -/
def c3p : Props :=
  ⟨c3s0, c3s1, "instagram", some 1, some [c3s0, c3s1, c3s2], false⟩

theorem c3_glitch_suppression_witness :
    glitchLikes c3p
    ∧ getEffectivePair c3p .likes = ⟨100, 120, c3s0.views, c3s2.views, true⟩
    ∧ ¬ zeroLikesCond c3p
    ∧ ¬ likesFrozenCond c3p :=
  c3_glitch_suppression c3p c3s0 c3s1 c3s2 rfl rfl rfl rfl rfl rfl rfl

/-- C4 (amended): the runner copy omits exactly the early-view-jump rule and
the two TikTok zero-saves/zero-shares rules; on every input where those three
rules leave the accumulator unchanged, the two copies return equal
responses. -/
theorem c4_copies_agree (p : Props)
    (h1 : ∀ st, earlyJumpStep p st = st)
    (h2 : ∀ st, tiktokZeroSavesStep p st = st)
    (h3 : ∀ st, tiktokZeroSharesStep p st = st) :
    runnerDetectBotAlgo p = detectBotAlgo p := by
  simp only [runnerDetectBotAlgo, detectBotAlgo, runnerPipe, enginePipe, h1, h2, h3]

/-- Input refuting C4 as stated: TikTok at 5000 views with zero saves (no
`scanIndex`, no `allScans`).  The engine copy fires its TikTok zero-saves
rule; the runner copy has no such rule and stays clean. -/
def c4x : Props :=
  ⟨⟨4000, 40, 5, 5, 5, false⟩, ⟨5000, 50, 0, 6, 6, false⟩, "tiktok", none, none, false⟩

theorem c4_copies_differ_cex :
    detectBotAlgo c4x = ⟨true, "\nzero saves at 5k+ views (TikTok)"⟩
    ∧ runnerDetectBotAlgo c4x = ⟨false, ""⟩
    ∧ runnerDetectBotAlgo c4x ≠ detectBotAlgo c4x := by
  have he : detectBotAlgo c4x = ⟨true, "\nzero saves at 5k+ views (TikTok)"⟩ := by
    norm_num +decide [detectBotAlgo, enginePipe, earlyJumpStep, earlyJumpCond, likesDoubledStep,
      likesDoubledCond, likesFrozenStep, likesFrozenCond, likesSpikeStep, likesSpikeCond,
      sharesSavesStep, checkAnomaly, sharesZeroJumpStep, sharesZeroJumpCond,
      savesZeroJumpStep, savesZeroJumpCond, tiktokZeroSavesStep, tiktokZeroSavesCond,
      tiktokZeroSharesStep, tiktokZeroSharesCond, zeroLikesStep, zeroLikesCond,
      snapUltraLowStep, snapUltraCond, likeRatioCollapseStep, likeRatioCollapseCond,
      commentDropStep, commentDropCond, commentJumpFlatStep, commentJumpFlatCond,
      commentInjectionStep, commentInjectionCond, windowPatternsStep, windowGuard,
      matureScan, leadingZeroCount, countLeadingZeroViews, glitchLikes, glitchComments,
      glitchSaves, glitchShares, glitchOn, nextScan, prevPrevScan, optMetric, optViews,
      getEffectivePair, ScanData.metric, prevLikeFrac, currLikeFrac, maxQ, absQ,
      viewJumpFactor, commentJumpFactor, c4x]
  have hr : runnerDetectBotAlgo c4x = ⟨false, ""⟩ := by
    norm_num +decide [runnerDetectBotAlgo, runnerPipe, likesDoubledStep,
      likesDoubledCond, likesFrozenStep, likesFrozenCond, likesSpikeStep, likesSpikeCond,
      sharesSavesStep, checkAnomaly, sharesZeroJumpStep, sharesZeroJumpCond,
      savesZeroJumpStep, savesZeroJumpCond, zeroLikesStep, zeroLikesCond,
      snapUltraLowStep, snapUltraCond, likeRatioCollapseStep, likeRatioCollapseCond,
      commentDropStep, commentDropCond, commentJumpFlatStep, commentJumpFlatCond,
      commentInjectionStep, commentInjectionCond, windowPatternsStep, windowGuard,
      matureScan, glitchLikes, glitchComments,
      glitchSaves, glitchShares, glitchOn, nextScan, prevPrevScan, optMetric, optViews,
      getEffectivePair, ScanData.metric, prevLikeFrac, currLikeFrac, maxQ, absQ,
      viewJumpFactor, commentJumpFactor, c4x]
  refine ⟨he, hr, ?_⟩
  rw [he, hr]
  decide

/-- Concrete input for the C4 witness: Instagram transition where none of the
three engine-only rules can fire. -/
def c4w : Props :=
  ⟨⟨100, 10, 1, 1, 1, false⟩, ⟨120, 12, 1, 1, 1, false⟩, "instagram", none, none, false⟩

theorem c4_copies_agree_witness : runnerDetectBotAlgo c4w = detectBotAlgo c4w := by
  refine c4_copies_agree c4w ?_ ?_ ?_
  · intro st
    simp +decide [earlyJumpStep, earlyJumpCond, matureScan, c4w]
  · intro st
    simp +decide [tiktokZeroSavesStep, tiktokZeroSavesCond, c4w]
  · intro st
    simp +decide [tiktokZeroSharesStep, tiktokZeroSharesCond, c4w]

/-- C5: on a mature transition with `scanIndex - leadingZeroCount < 4`, the
early-view-jump rule fires — appending "early 20k+ view jump within first 5
scans" and setting the reject flag — exactly when the raw view delta is at
least 20000; in particular a delta of 19999 does not trigger it. -/
theorem c5_early_jump (p : Props) (i : ℕ) (hIdx : p.scanIndex = some i)
    (hMature : 1 ≤ i) (hEarly : (i : ℤ) - (leadingZeroCount p : ℤ) < 4) :
    (earlyJumpCond p ↔ 20000 ≤ p.currentScan.views - p.prevScan.views)
    ∧ earlyJumpStep p ⟨false, ""⟩
        = (if 20000 ≤ p.currentScan.views - p.prevScan.views then
            ⟨true, "\nearly 20k+ view jump within first 5 scans"⟩ else ⟨false, ""⟩) := by
  have hm : matureScan p = true := by
    unfold matureScan
    rw [hIdx]
    simpa using hMature
  have hiff : earlyJumpCond p ↔ 20000 ≤ p.currentScan.views - p.prevScan.views := by
    unfold earlyJumpCond
    rw [hIdx]
    simp only [Option.getD_some]
    constructor
    · exact fun hc => hc.2.2
    · exact fun hd => ⟨hm, hEarly, hd⟩
  refine ⟨hiff, ?_⟩
  unfold earlyJumpStep
  by_cases hd : 20000 ≤ p.currentScan.views - p.prevScan.views
  · rw [if_pos (hiff.mpr hd), if_pos hd]
    rfl
  · rw [if_neg (fun hc => hd (hiff.mp hc)), if_neg hd]

/-- First scan of the C5 witness series (zero views). -/
def c5s0 : ScanData := ⟨0, 0, 0, 0, 0, false⟩

/-- Second scan of the C5 witness series: a 20000-view jump. -/
def c5s1 : ScanData := ⟨20000, 5, 1, 1, 1, false⟩

/-- The C5 witness call: transition 1 of a `[0, 20000]`-views series. -/
def c5p : Props := ⟨c5s0, c5s1, "tiktok", some 1, some [c5s0, c5s1], false⟩

theorem c5_early_jump_witness :
    c5p.scanIndex = some 1
    ∧ ((1 : ℤ) - (leadingZeroCount c5p : ℤ) < 4)
    ∧ earlyJumpCond c5p
    ∧ earlyJumpStep c5p ⟨false, ""⟩
        = ⟨true, "\nearly 20k+ view jump within first 5 scans"⟩ := by
  have hlz : (1 : ℤ) - (leadingZeroCount c5p : ℤ) < 4 := by
    norm_num [leadingZeroCount, countLeadingZeroViews, c5p, c5s0, c5s1]
  have h := c5_early_jump c5p 1 rfl (by norm_num) hlz
  have hd : (20000 : ℚ) ≤ c5p.currentScan.views - c5p.prevScan.views := by
    norm_num [c5p, c5s0, c5s1]
  refine ⟨rfl, hlz, h.1.mpr hd, ?_⟩
  rw [h.2, if_pos hd]

theorem string_empty_append (s : String) : "" ++ s = s := by
  cases s with
  | mk data => rfl

theorem windowOf_length (l : List ScanData) (i : ℕ) (h : 6 ≤ l.length) :
    (windowOf l i).length = 6 := by
  unfold windowOf
  rw [List.length_take, List.length_drop]
  omega

theorem windowOf_get?_isSome (l : List ScanData) (i k : ℕ) (h : 6 ≤ l.length) (hk : k < 6) :
    ((windowOf l i).get? k).isSome = true := by
  rw [List.get?_eq_getElem?]
  rw [List.getElem?_eq_getElem (by rw [windowOf_length l i h]; exact hk)]
  rfl

theorem maxQ_zeroGuard (v : ℚ) : maxQ (if v = 0 then 1 else v) 1 = maxQ v 1 := by
  by_cases h : v = 0
  · rw [if_pos h, h]
    norm_num [maxQ]
  · rw [if_neg h]

/-- A scan carrying only a view count, for window examples. -/
def mkViewScan (v : ℚ) : ScanData := ⟨v, 0, 0, 0, 0, false⟩

/-- The positive C6 window: views `[1000, 1010, 995, 1600, 1605, 1590]`. -/
def c6PosWindow : List ScanData :=
  [mkViewScan 1000, mkViewScan 1010, mkViewScan 995,
   mkViewScan 1600, mkViewScan 1605, mkViewScan 1590]

/-- The negative C6 window: the jump reduced to +100,
views `[1000, 1010, 995, 1095, 1100, 1085]`. -/
def c6NegWindow : List ScanData :=
  [mkViewScan 1000, mkViewScan 1010, mkViewScan 995,
   mkViewScan 1095, mkViewScan 1100, mkViewScan 1085]

/-- C6: when the platform is not youtube, the series has at least 6 scans and
a scan index is supplied, the window used is the 6-scan slice starting at
`max(0, min(scanIndex-3, length-6))`; the plateau-jump-plateau rule fires on
the window `w` — with the full 6-value trace and the reject flag — exactly
when `|w0-w2| ≤ 30 ∧ w3-w2 ≥ 500 ∧ |w3-w4| ≤ 30 ∧ |w4-w5| ≤ 30 ∧
(|w5-w3| ≤ 30 ∨ |w5-w3|/max(w3,1) ≤ 1/10)`; concretely the window with views
`[1000,1010,995,1600,1605,1590]` fires and the same window with the jump
reduced to +100 does not. -/
theorem c6_plateau_characterization (p : Props) (l : List ScanData) (i : ℕ)
    (hAll : p.allScans = some l) (hIdx : p.scanIndex = some i)
    (hPlat : p.platform ≠ "youtube") (hLen : 6 ≤ l.length) :
    windowGuard p
    ∧ propsWindow p = windowOf l i
    ∧ (plateauCond (windowOf l i) ↔
        (absQ (wv (windowOf l i) 0 - wv (windowOf l i) 2) ≤ 30
         ∧ 500 ≤ wv (windowOf l i) 3 - wv (windowOf l i) 2
         ∧ absQ (wv (windowOf l i) 3 - wv (windowOf l i) 4) ≤ 30
         ∧ absQ (wv (windowOf l i) 4 - wv (windowOf l i) 5) ≤ 30
         ∧ (absQ (wv (windowOf l i) 5 - wv (windowOf l i) 3) ≤ 30
            ∨ absQ (wv (windowOf l i) 5 - wv (windowOf l i) 3)
                / maxQ (wv (windowOf l i) 3) 1 ≤ 1/10)))
    ∧ plateauPatternStep (windowOf l i) ⟨false, ""⟩
        = (if plateauCond (windowOf l i) then
            ⟨true, plateauTrace (windowOf l i)⟩ else ⟨false, ""⟩)
    ∧ plateauCond c6PosWindow ∧ ¬ plateauCond c6NegWindow := by
  have hs0 := windowOf_get?_isSome l i 0 hLen (by norm_num)
  have hs2 := windowOf_get?_isSome l i 2 hLen (by norm_num)
  have hs3 := windowOf_get?_isSome l i 3 hLen (by norm_num)
  have hs4 := windowOf_get?_isSome l i 4 hLen (by norm_num)
  have hs5 := windowOf_get?_isSome l i 5 hLen (by norm_num)
  refine ⟨?_, ?_, ?_, ?_, ?_, ?_⟩
  · unfold windowGuard
    rw [hAll, hIdx]
    exact ⟨hPlat, rfl, by simpa using hLen, rfl⟩
  · unfold propsWindow
    rw [hAll, hIdx]
    rfl
  · unfold plateauCond overallChangeAbs overallChangeRel isPlateau
    rw [maxQ_zeroGuard]
    simp only [hs0, hs2, hs3, hs4, hs5, eq_self_iff_true, true_and, and_true, and_self, if_true]
    tauto
  · by_cases hc : plateauCond (windowOf l i)
    · unfold plateauPatternStep
      rw [if_pos hc, if_pos hc]
      show (⟨true, "" ++ plateauTrace (windowOf l i)⟩ : BotDetectorAlgoResponse) = _
      rw [string_empty_append]
    · unfold plateauPatternStep
      rw [if_neg hc, if_neg hc]
  · norm_num +decide [plateauCond, isPlateau, overallChangeAbs, overallChangeRel,
      wv, optViews, absQ, maxQ, c6PosWindow, mkViewScan, List.get?]
  · norm_num +decide [plateauCond, isPlateau, overallChangeAbs, overallChangeRel,
      wv, optViews, absQ, maxQ, c6NegWindow, mkViewScan, List.get?]

/-- The C6 witness call: transition 3 of the positive 6-scan series. -/
def c6p : Props :=
  ⟨mkViewScan 995, mkViewScan 1600, "tiktok", some 3, some c6PosWindow, false⟩

theorem c6_plateau_witness :
    6 ≤ c6PosWindow.length ∧ c6p.platform ≠ "youtube"
    ∧ plateauCond c6PosWindow ∧ ¬ plateauCond c6NegWindow := by
  have h := c6_plateau_characterization c6p c6PosWindow 3 rfl rfl (by decide) (by decide)
  exact ⟨by decide, by decide, h.2.2.2.2.1, h.2.2.2.2.2⟩

/-- C7 (amended): `detectBotDuringScan` yields no verdict (`undefined`) for a
series with fewer than 2 scans, and `analyzeUrl` raises
`Error("No scans found.")` when no valid (non-missing) scan exists.  (For
exactly one valid scan `analyzeUrl` instead returns a normal empty-flag
result; see the counterexample.) -/
theorem c7_insufficient_data :
    (∀ (platform : String) (scans : List ScanData), scans.length < 2 →
        detectBotDuringScan platform scans = none)
    ∧ (∀ (platform : String) (scans : List ScanData) (logNotes : Bool),
        (scans.filter (fun s => !s.missing)).length = 0 →
        analyzeUrlCore platform scans logNotes = Except.error "No scans found.") := by
  constructor
  · intro platform scans h
    unfold detectBotDuringScan
    rw [if_pos h]
  · intro platform scans logNotes h
    simp only [analyzeUrlCore]
    rw [if_pos h]

/-- The single scan of the C7 counterexample. -/
def c7s : ScanData := ⟨500, 3, 0, 0, 1, false⟩

theorem c7_single_scan_cex :
    analyzeUrlCore "tiktok" [c7s] false
      = Except.ok ⟨"tiktok", 1, [], [], some [], some []⟩ := by
  rfl

theorem c7_insufficient_data_witness :
    detectBotDuringScan "tiktok" [] = none
    ∧ analyzeUrlCore "tiktok" [] false = Except.error "No scans found." :=
  ⟨c7_insufficient_data.1 "tiktok" [] (by decide),
   c7_insufficient_data.2 "tiktok" [] false (by decide)⟩

theorem szlGo_skip (minViews : ℚ) (minRun total : ℕ) (xs : List ScanData)
    (hxs : ∀ s ∈ xs, ¬ zeroLikeRunCond minViews s) (rest : List ScanData)
    (msgs : List String) (i : ℕ) :
    summarizeZeroLikesGo minViews minRun total (xs ++ rest) i none msgs
      = summarizeZeroLikesGo minViews minRun total rest (i + xs.length) none msgs := by
  induction xs generalizing i with
  | nil => simp
  | cons x xs ih =>
    have hx : ¬ zeroLikeRunCond minViews x := hxs x (List.mem_cons_self x xs)
    rw [List.cons_append]
    simp only [summarizeZeroLikesGo, if_neg hx]
    rw [ih (fun s hs => hxs s (List.mem_cons_of_mem x hs)) (i + 1)]
    have he : i + 1 + xs.length = i + (x :: xs).length := by
      simp [List.length_cons]
      omega
    rw [he]

theorem szlGo_run (minViews : ℚ) (minRun total : ℕ) (ys : List ScanData)
    (hys : ∀ y ∈ ys, zeroLikeRunCond minViews y) (rest : List ScanData)
    (msgs : List String) (s : ℕ) (i : ℕ) :
    summarizeZeroLikesGo minViews minRun total (ys ++ rest) i (some s) msgs
      = summarizeZeroLikesGo minViews minRun total rest (i + ys.length) (some s) msgs := by
  induction ys generalizing i with
  | nil => simp
  | cons y ys ih =>
    have hy : zeroLikeRunCond minViews y := hys y (List.mem_cons_self y ys)
    rw [List.cons_append]
    simp only [summarizeZeroLikesGo, if_pos hy, Option.getD_some]
    rw [ih (fun y' hy' => hys y' (List.mem_cons_of_mem y hy')) (i + 1)]
    have he : i + 1 + ys.length = i + (y :: ys).length := by
      simp [List.length_cons]
      omega
    rw [he]

theorem szlGo_close (minViews : ℚ) (minRun total : ℕ) (zs : List ScanData)
    (hzs : ∀ z ∈ zs, ¬ zeroLikeRunCond minViews z) (msgs : List String) (s i : ℕ) :
    summarizeZeroLikesGo minViews minRun total zs i (some s) msgs
      = (if minRun ≤ (match zs with | [] => total | _ :: _ => i) - s then
          msgs ++ [zeroLikesRunMsg (s + 1) (match zs with | [] => total | _ :: _ => i)
            ((match zs with | [] => total | _ :: _ => i) - s)]
        else msgs) := by
  cases zs with
  | nil => rfl
  | cons z zs =>
    have hz : ¬ zeroLikeRunCond minViews z := hzs z (List.mem_cons_self z zs)
    simp only [summarizeZeroLikesGo, if_neg hz]
    have hrest := szlGo_skip minViews minRun total zs
      (fun w hw => hzs w (List.mem_cons_of_mem z hw)) []
      (if minRun ≤ i - s then msgs ++ [zeroLikesRunMsg (s + 1) i (i - s)] else msgs) (i + 1)
    rw [List.append_nil] at hrest
    rw [hrest]
    rfl

/-- C8: for a series made of one maximal run of consecutive scans satisfying
`views > 1000 ∧ likes = 0` (preceded and followed only by scans violating the
condition), `summarizeZeroLikes` with `minViews = 1000, minRun = 5` produces
exactly one summary line covering the whole run when the run has length at
least 5 — also when the run reaches the series end — and no line otherwise. -/
theorem c8_zero_likes_run_summary (xs ys zs : List ScanData)
    (hxs : ∀ s ∈ xs, ¬ zeroLikeRunCond 1000 s)
    (hys : ∀ s ∈ ys, zeroLikeRunCond 1000 s)
    (hzs : ∀ s ∈ zs, ¬ zeroLikeRunCond 1000 s)
    (hne : ys ≠ []) :
    summarizeZeroLikes (xs ++ ys ++ zs) 1000 5
      = if 5 ≤ ys.length then
          [zeroLikesRunMsg (xs.length + 1) (xs.length + ys.length) ys.length]
        else [] := by
  obtain ⟨y, ys', rfl⟩ : ∃ y ys', ys = y :: ys' := by
    cases ys with
    | nil => exact absurd rfl hne
    | cons a l => exact ⟨a, l, rfl⟩
  unfold summarizeZeroLikes
  rw [List.append_assoc]
  rw [szlGo_skip 1000 5 _ xs hxs _ [] 0]
  rw [List.cons_append]
  simp only [summarizeZeroLikesGo, if_pos (hys y (List.mem_cons_self y ys')),
    Option.getD_none]
  rw [szlGo_run 1000 5 _ ys' (fun y' hy' => hys y' (List.mem_cons_of_mem y hy')) zs []
    (0 + xs.length) (0 + xs.length + 1)]
  rw [szlGo_close 1000 5 _ zs hzs [] (0 + xs.length) (0 + xs.length + 1 + ys'.length)]
  cases zs with
  | nil =>
    simp only [List.append_nil, List.length_append, List.length_cons, List.length_nil,
      Nat.zero_add, Nat.add_zero, Nat.add_sub_cancel_left]
    simp
  | cons z zs' =>
    simp only [List.length_cons, Nat.zero_add]
    have e1 : xs.length + 1 + ys'.length - xs.length = ys'.length + 1 := by omega
    have e2 : xs.length + 1 + ys'.length = xs.length + (ys'.length + 1) := by omega
    rw [e1, e2]
    simp

/-- A zero-likes scan above the view floor, for the C8 witness. -/
def c8run : ScanData := ⟨2000, 0, 1, 1, 1, false⟩

/-- The scan with positive likes that ends the C8 witness run. -/
def c8end : ScanData := ⟨2050, 5, 1, 1, 1, false⟩

theorem c8_zero_likes_run_witness :
    summarizeZeroLikes [c8run, c8run, c8run, c8run, c8run, c8end] 1000 5
      = [zeroLikesRunMsg 1 5 5] := by
  have h := c8_zero_likes_run_summary [] [c8run, c8run, c8run, c8run, c8run] [c8end]
    (by intro s hs; exact absurd hs (List.not_mem_nil s))
    (by
      intro s hs
      simp only [List.mem_cons, List.not_mem_nil, or_false] at hs
      rcases hs with rfl | rfl | rfl | rfl | rfl <;> decide)
    (by
      intro s hs
      simp only [List.mem_cons, List.not_mem_nil, or_false] at hs
      subst hs
      decide)
    (by decide)
  simpa using h
